import Mathlib

/-!
Shallow embedding of `src/client/mod.rs` of the influxdb-rust repository:
the `InfluxDbClient` struct and its `ping` and `query` methods. The HTTP
transport (reqwest) is modelled as an explicit function argument: the round
trip either fails with an error message or yields a response (a decoded body
for `query`, a header list for `ping`). `Url::parse_with_params` is modelled
by form-urlencoded serialization of the parameter pairs into the URL's query
string, following the url crate's documented encoding (alphanumeric ASCII and
`*-._` pass through, space becomes `+`, every other byte becomes `%XX`).
-/

/-- Modelled from the spec: the error enum lives in `src/error`, which is not
included under src/; its variants are transcribed from their construction
sites in `client/mod.rs` (`InvalidQueryError`, `ProtocolError`,
`DatabaseError`, `DeserializationError`), each carrying an error string. -/
inductive InfluxDbError where
  | InvalidQueryError (error : String)
  | ProtocolError (error : String)
  | DatabaseError (error : String)
  | DeserializationError (error : String)
deriving DecidableEq, Repr

/-- `InfluxDbAuthentication` from `client/mod.rs` lines 33-36:
username and password strings. -/
structure InfluxDbAuthentication where
  username : String
  password : String
deriving DecidableEq, Repr

/-- `InfluxDbClient` from `client/mod.rs` lines 51-55: url, database and an
optional authentication. -/
structure InfluxDbClient where
  url : String
  database : String
  auth : Option InfluxDbAuthentication
deriving DecidableEq, Repr

/-- `InfluxDbClient::new` (lines 72-82). -/
def InfluxDbClient.new (url database : String) (auth : Option InfluxDbAuthentication) :
    InfluxDbClient :=
  { url := url, database := database, auth := auth }

/-- `InfluxDbClient::database_name` (lines 85-87). -/
def InfluxDbClient.database_name (c : InfluxDbClient) : String := c.database

/-- `InfluxDbClient::database_url` (lines 90-92). -/
def InfluxDbClient.database_url (c : InfluxDbClient) : String := c.url

/-- Rust `str::contains` on char lists: `pat` occurs as a contiguous
substring of `l`. -/
def listContainsSub (pat : List Char) : List Char → Bool
  | [] => pat.isEmpty
  | c :: cs => pat.isPrefixOf (c :: cs) || listContainsSub pat cs

/-- Rust `str::contains(pat)` for strings. -/
def strContains (s pat : String) : Bool :=
  listContainsSub pat.data s.data

/-- UTF-8 encoding of one char as its byte values. -/
def utf8Bytes (c : Char) : List Nat :=
  let n := c.toNat
  if n < 0x80 then [n]
  else if n < 0x800 then [0xC0 + n / 64, 0x80 + n % 64]
  else if n < 0x10000 then
    [0xE0 + n / 4096, 0x80 + (n / 64) % 64, 0x80 + n % 64]
  else
    [0xF0 + n / 262144, 0x80 + (n / 4096) % 64, 0x80 + (n / 64) % 64, 0x80 + n % 64]

/-- Uppercase hex digit for a value below 16. -/
def hexDigitChar (n : Nat) : Char :=
  if n < 10 then Char.ofNat (48 + n) else Char.ofNat (55 + n)

/-- Percent-encoding `%XX` of one byte, uppercase hex. -/
def percentEncodeByte (b : Nat) : String :=
  "%" ++ String.singleton (hexDigitChar (b / 16)) ++ String.singleton (hexDigitChar (b % 16))

/-- Bytes the form-urlencoded serializer passes through unchanged:
ASCII alphanumerics and `*-._`. -/
def isFormUnreserved (c : Char) : Bool :=
  c.isAlphanum || c = '*' || c = '-' || c = '.' || c = '_'

/-- Form-urlencoded serialization of one char: unreserved chars pass through,
space becomes `+`, anything else is percent-encoded byte by byte. -/
def formUrlEncodeChar (c : Char) : String :=
  if isFormUnreserved c then String.singleton c
  else if c = ' ' then "+"
  else String.join ((utf8Bytes c).map percentEncodeByte)

/-- Form-urlencoded serialization of a string. -/
def formUrlEncodeStr (s : String) : String :=
  String.join (s.data.map formUrlEncodeChar)

/-- `Url::parse_with_params` query-string part: each `(k, v)` pair is
serialized as `encode k ++ "=" ++ encode v`, pairs joined by `&`. -/
def formUrlEncode (params : List (String × String)) : String :=
  String.intercalate "&" (params.map fun kv => formUrlEncodeStr kv.1 ++ "=" ++ formUrlEncodeStr kv.2)

/-- HTTP method of a built request. -/
inductive Method where
  | GET
  | POST
deriving DecidableEq, Repr

/-- The request the client hands to reqwest: method, the URL path part (what
stands before `?`), the already-encoded URL query string, and the optional
request body. -/
structure Request where
  method : Method
  urlPath : String
  urlQuery : String
  body : Option String
deriving DecidableEq, Repr

/-- Modelled from the spec: the query module (`InfluxDbReadQuery`,
`InfluxDbWriteQuery`, `build()`, `get_precision_modifier()`) is not under
src/. Following the glossary (a read query carries a query-language string, a
write query appends timestamped measurements and carries a precision
modifier) and the client's use of `q.build()`, a query object is either kind
together with the result of its `build()` step (the built query string, or an
error message); a write query additionally carries its precision modifier. -/
inductive QueryObj where
  | read (buildResult : Except String String)
  | write (buildResult : Except String String) (precisionModifier : String)
deriving Repr

/-- `q.build()` as used at `client/mod.rs` line 153. -/
def QueryObj.build : QueryObj → Except String String
  | .read r => r
  | .write r _ => r

/-- `write_query.get_precision_modifier()` as used at line 185. -/
def QueryObj.get_precision_modifier : QueryObj → Option String
  | .read _ => none
  | .write _ p => some p

/-- The `("u", username), ("p", password)` pairs pushed when authentication
is configured (lines 173-176 and 191-194), empty otherwise. -/
def authParams (c : InfluxDbClient) : List (String × String) :=
  match c.auth with
  | some a => [("u", a.username), ("p", a.password)]
  | none => []

/-- Parameter list for a read query (lines 168-176):
`db`, `q`, then the auth pairs. -/
def readQueryParameters (c : InfluxDbClient) (readQuery : String) : List (String × String) :=
  [("db", c.database_name), ("q", readQuery)] ++ authParams c

/-- Parameter list for a write query (lines 186-194):
`db`, `precision`, then the auth pairs. -/
def writeQueryParameters (c : InfluxDbClient) (precisionModifier : String) :
    List (String × String) :=
  [("db", c.database_name), ("precision", precisionModifier)] ++ authParams c

/-- `InfluxDbClient::query` up to the send: builds the query string, and on
success dispatches on the runtime type of the query object to construct the
request (lines 153-202). On a build error it returns the
`InvalidQueryError` immediately and constructs no request. -/
def buildRequest (c : InfluxDbClient) (q : QueryObj) : Except InfluxDbError Request :=
  match q.build with
  | .error err => .error (.InvalidQueryError err)
  | .ok query =>
    match q with
    | .read _ =>
      let parameters := readQueryParameters c query
      .ok { method :=
              if strContains query "SELECT" || strContains query "SHOW" then .GET else .POST,
            urlPath := c.database_url ++ "/write",
            urlQuery := formUrlEncode parameters,
            body := none }
    | .write _ precisionModifier =>
      let parameters := writeQueryParameters c precisionModifier
      .ok { method := .POST,
            urlPath := c.database_url ++ "/write",
            urlQuery := formUrlEncode parameters,
            body := some query }

/-- Response-body handling of `query` (lines 214-231): an invalid-UTF-8 body
(`none`) is a `DeserializationError`; a body containing `"error"` (with the
double quotes) is a `DatabaseError`; anything else resolves to the body. -/
def handleResponseBody (body : Option String) : Except InfluxDbError String :=
  match body with
  | none => .error (.DeserializationError "response could not be converted to UTF-8")
  | some s =>
    if strContains s "\"error\"" then
      .error (.DatabaseError ("influxdb error: \"" ++ s ++ "\""))
    else
      .ok s

/-- The list of HTTP requests a `query` call hands to the transport: none
when `build()` fails, exactly the one built request otherwise. -/
def queryRequests (c : InfluxDbClient) (q : QueryObj) : List Request :=
  match buildRequest c q with
  | .error _ => []
  | .ok r => [r]

/-- A transport round trip for `query`: either a transport error message, or
the response body (`none` when the bytes are not valid UTF-8). -/
def QueryTransport := Request → Except String (Option String)

/-- The whole `query` method (lines 147-233) over an explicit transport:
build, dispatch, send once, map the transport error to `ProtocolError`,
then run the body handling. -/
def queryRun (c : InfluxDbClient) (q : QueryObj) (transport : QueryTransport) :
    Except InfluxDbError String :=
  match buildRequest c q with
  | .error e => .error e
  | .ok r =>
    match transport r with
    | .error err => .error (.ProtocolError err)
    | .ok body => handleResponseBody body

/-- The request `ping` sends (lines 103-105): a GET of `{url}/ping` with no
parameters and no body. -/
def pingRequest (c : InfluxDbClient) : Request :=
  { method := .GET, urlPath := c.url ++ "/ping", urlQuery := "", body := none }

/-- The list of HTTP requests a `ping` call sends: always exactly one. -/
def pingRequests (c : InfluxDbClient) : List Request :=
  [pingRequest c]

/-- `http::HeaderValue::to_str` as used by ping: succeeds only when every
byte is visible ASCII (32-126, or tab), yielding the bytes as a string. -/
def headerToStr (bs : List Nat) : Option String :=
  if bs.all (fun b => decide (b = 9 ∨ (32 ≤ b ∧ b < 127))) then
    some (String.mk (bs.map Char.ofNat))
  else
    none

/-- ASCII lowercase of one char, for case-insensitive header-name matching. -/
def asciiLower (c : Char) : Char :=
  if 'A' ≤ c ∧ c ≤ 'Z' then Char.ofNat (c.toNat + 32) else c

/-- ASCII lowercase of a string. -/
def strLower (s : String) : String :=
  String.mk (s.data.map asciiLower)

/-- `res.headers().get(name)`: case-insensitive lookup of the first header
with the given name. -/
def lookupHeader (hs : List (String × List Nat)) (name : String) : Option (List Nat) :=
  (hs.find? fun h => strLower h.1 == strLower name).map (·.2)

/-- The response handling of `ping` (lines 106-121): `get` then `to_str` on
`X-Influxdb-Build` and `X-Influxdb-Version`, each result unwrapped. A failed
`unwrap` is a panic, modelled as `none`. -/
def pingProcess (hs : List (String × List Nat)) : Option (String × String) :=
  match lookupHeader hs "X-Influxdb-Build" with
  | none => none
  | some b =>
    match headerToStr b with
    | none => none
    | some build =>
      match lookupHeader hs "X-Influxdb-Version" with
      | none => none
      | some v =>
        match headerToStr v with
        | none => none
        | some version => some (build, version)

/-- A transport round trip for `ping`: either a transport error message, or
the response headers as (name, byte values) pairs. -/
def PingTransport := Request → Except String (List (String × List Nat))

/-- The whole `ping` method (lines 102-125) over an explicit transport: send
the one request, map a transport error to `ProtocolError`, process the
headers. The outer `none` marks a panic of the header processing. -/
def pingRun (c : InfluxDbClient) (transport : PingTransport) :
    Option (Except InfluxDbError (String × String)) :=
  match transport (pingRequest c) with
  | .error err => some (.error (.ProtocolError err))
  | .ok hs => (pingProcess hs).map .ok

/-- `query` with the receiver state threaded explicitly: the method takes
`&self` and assigns no field, so the state handed back is the receiver's
fields unchanged. -/
def queryCall (c : InfluxDbClient) (q : QueryObj) (transport : QueryTransport) :
    Except InfluxDbError String × InfluxDbClient :=
  (queryRun c q transport, { url := c.url, database := c.database, auth := c.auth })

/-- `ping` with the receiver state threaded explicitly: the method takes
`&self` and assigns no field. -/
def pingCall (c : InfluxDbClient) (transport : PingTransport) :
    Option (Except InfluxDbError (String × String)) × InfluxDbClient :=
  (pingRun c transport, { url := c.url, database := c.database, auth := c.auth })

/-- The methods of `impl InfluxDbClient` (lines 57-233) with their
visibility, in source order: `new`, `database_name`, `database_url` and the
private `auth` accessor, `ping`, `query`. -/
def influxDbClientMethods : List (String × Bool) :=
  [("new", true), ("database_name", true), ("database_url", true),
   ("auth", false), ("ping", true), ("query", true)]

/-- The public methods of the client class. -/
def influxDbClientPublicMethods : List String :=
  (influxDbClientMethods.filter (·.2)).map (·.1)

/-- C1: for every call to `query` whose HTTP round trip succeeds and whose
response body is valid UTF-8, the returned future resolves to a
`DatabaseError` if and only if the body contains the substring `"error"`
(double quotes included); otherwise it resolves to the body as a string. -/
theorem query_error_detection (c : InfluxDbClient) (q : QueryObj) (t : QueryTransport)
    (r : Request) (s : String)
    (hb : buildRequest c q = Except.ok r) (ht : t r = Except.ok (some s)) :
    (strContains s "\"error\"" = true →
      queryRun c q t =
        Except.error (InfluxDbError.DatabaseError ("influxdb error: \"" ++ s ++ "\"")))
    ∧ (strContains s "\"error\"" = false → queryRun c q t = Except.ok s) := by
  have hq : queryRun c q t = handleResponseBody (some s) := by
    unfold queryRun
    rw [hb]
    dsimp only
    rw [ht]
  constructor
  · intro h
    rw [hq]
    simp [handleResponseBody, h]
  · intro h
    rw [hq]
    simp [handleResponseBody, h]

/-- Witness for C1: a concrete successful round trip whose body has no
`"error"` substring resolves to the body. -/
theorem query_error_detection_witness :
    queryRun ⟨"http://u", "test", none⟩ (QueryObj.read (Except.ok "SELECT x"))
      (fun _ => Except.ok (some "results")) = Except.ok "results" :=
  (query_error_detection ⟨"http://u", "test", none⟩ (QueryObj.read (Except.ok "SELECT x"))
    (fun _ => Except.ok (some "results"))
    ⟨Method.GET, "http://u/write", "db=test&q=SELECT+x", none⟩ "results"
    rfl rfl).2 (by decide)

/-- C2: `query` dispatches on the runtime type of its argument: a read query
yields a request whose parameters carry the database name under `db` and the
built query string under `q` with no body, and a write query yields a POST
request whose parameters carry `db` and `precision` and whose body is the
built query string. -/
theorem query_runtime_dispatch (c : InfluxDbClient) (qs prec : String) :
    (∃ r, buildRequest c (QueryObj.read (Except.ok qs)) = Except.ok r ∧
        r.urlQuery = formUrlEncode (readQueryParameters c qs) ∧
        ("db", c.database) ∈ readQueryParameters c qs ∧
        ("q", qs) ∈ readQueryParameters c qs ∧
        r.body = none)
    ∧ (∃ r, buildRequest c (QueryObj.write (Except.ok qs) prec) = Except.ok r ∧
        r.method = Method.POST ∧
        r.urlQuery = formUrlEncode (writeQueryParameters c prec) ∧
        ("db", c.database) ∈ writeQueryParameters c prec ∧
        ("precision", prec) ∈ writeQueryParameters c prec ∧
        r.body = some qs) := by
  constructor
  · refine ⟨_, rfl, rfl, ?_, ?_, rfl⟩
    · simp [readQueryParameters, InfluxDbClient.database_name]
    · simp [readQueryParameters]
  · refine ⟨_, rfl, rfl, rfl, ?_, ?_, rfl⟩
    · simp [writeQueryParameters, InfluxDbClient.database_name]
    · simp [writeQueryParameters]

/-- C3: a read query's request URL is built from the path `{url}/write`, and
its method is GET exactly when the built query string contains `SELECT` or
`SHOW`, POST otherwise. -/
theorem read_query_endpoint_and_method (c : InfluxDbClient) (qs : String) :
    ∃ r, buildRequest c (QueryObj.read (Except.ok qs)) = Except.ok r ∧
      r.urlPath = c.url ++ "/write" ∧
      r.method =
        (if strContains qs "SELECT" || strContains qs "SHOW" then Method.GET
         else Method.POST) :=
  ⟨_, rfl, rfl, rfl⟩

/-- C4: a write query's request URL carries a `precision` parameter whose
value is the write query's precision modifier. -/
theorem write_query_precision_parameter (c : InfluxDbClient) (qs prec : String) :
    ∃ r, buildRequest c (QueryObj.write (Except.ok qs) prec) = Except.ok r ∧
      QueryObj.get_precision_modifier (QueryObj.write (Except.ok qs) prec) = some prec ∧
      ("precision", prec) ∈ writeQueryParameters c prec ∧
      r.urlQuery = formUrlEncode (writeQueryParameters c prec) := by
  refine ⟨_, rfl, rfl, ?_, rfl⟩
  simp [writeQueryParameters]

/-- C5: when `build()` fails, `query` returns the `InvalidQueryError`
wrapping the build error's message, and no HTTP request is constructed or
sent. -/
theorem query_build_failure (c : InfluxDbClient) (q : QueryObj) (err : String)
    (t : QueryTransport) (hb : q.build = Except.error err) :
    buildRequest c q = Except.error (InfluxDbError.InvalidQueryError err)
    ∧ queryRun c q t = Except.error (InfluxDbError.InvalidQueryError err)
    ∧ queryRequests c q = [] := by
  have h1 : buildRequest c q = Except.error (InfluxDbError.InvalidQueryError err) := by
    unfold buildRequest
    rw [hb]
  refine ⟨h1, ?_, ?_⟩
  · unfold queryRun
    rw [h1]
  · unfold queryRequests
    rw [h1]

/-- Witness for C5: a concrete failing build short-circuits to the
`InvalidQueryError`. -/
theorem query_build_failure_witness :
    queryRun ⟨"http://u", "test", none⟩ (QueryObj.read (Except.error "boom"))
      (fun _ => Except.ok (some "x"))
      = Except.error (InfluxDbError.InvalidQueryError "boom") :=
  (query_build_failure ⟨"http://u", "test", none⟩ (QueryObj.read (Except.error "boom"))
    "boom" (fun _ => Except.ok (some "x")) rfl).2.1

/-- C6: `ping` and `query` leave the client's state unchanged: the url,
database and auth fields after the call equal those before it, and a call's
result is unaffected by an earlier call. -/
theorem ping_query_stateless (c : InfluxDbClient) (q : QueryObj) (t : QueryTransport)
    (tp : PingTransport) :
    (queryCall c q t).2 = c
    ∧ (queryCall c q t).2.url = c.url
    ∧ (queryCall c q t).2.database = c.database
    ∧ (queryCall c q t).2.auth = c.auth
    ∧ (pingCall c tp).2 = c
    ∧ (pingCall c tp).2.url = c.url
    ∧ (pingCall c tp).2.database = c.database
    ∧ (pingCall c tp).2.auth = c.auth
    ∧ (queryCall (pingCall c tp).2 q t).1 = (queryCall c q t).1
    ∧ (pingCall (queryCall c q t).2 tp).1 = (pingCall c tp).1 :=
  ⟨rfl, rfl, rfl, rfl, rfl, rfl, rfl, rfl, rfl, rfl⟩

/-- Counterexample to C7 as stated: the client class does not have exactly
three public methods. -/
theorem client_public_method_count_not_three :
    influxDbClientPublicMethods.length ≠ 3 := by
  decide

/-- C7 amended: the client class exposes exactly five public methods: the
constructor `new`, the accessors `database_name` and `database_url`, `ping`,
and the send-query operation `query`. -/
theorem client_public_methods_are_five :
    influxDbClientPublicMethods =
      ["new", "database_name", "database_url", "ping", "query"]
    ∧ influxDbClientPublicMethods.length = 5 := by
  decide

/-- C8: at most one HTTP request per call: `query` hands the transport at
most one request and `ping` exactly one; each call's outcome depends only on
the transport's answer at those requests (so no second attempt is made); a
failed round trip resolves the future to a `ProtocolError` rather than
triggering a retry. -/
theorem no_retry_single_request (c : InfluxDbClient) (q : QueryObj)
    (t1 t2 : QueryTransport) (p1 p2 : PingTransport) (e : String) :
    (queryRequests c q).length ≤ 1
    ∧ (pingRequests c).length = 1
    ∧ ((∀ r ∈ queryRequests c q, t1 r = t2 r) → queryRun c q t1 = queryRun c q t2)
    ∧ (p1 (pingRequest c) = p2 (pingRequest c) → pingRun c p1 = pingRun c p2)
    ∧ (∀ r, buildRequest c q = Except.ok r →
        queryRun c q (fun _ => Except.error e)
          = Except.error (InfluxDbError.ProtocolError e))
    ∧ pingRun c (fun _ => Except.error e)
        = some (Except.error (InfluxDbError.ProtocolError e)) := by
  refine ⟨?_, rfl, ?_, ?_, ?_, rfl⟩
  · unfold queryRequests
    cases buildRequest c q <;> simp
  · intro hag
    unfold queryRun
    cases hb : buildRequest c q with
    | error e' => rfl
    | ok r =>
      have hr : r ∈ queryRequests c q := by
        unfold queryRequests
        rw [hb]
        simp
      dsimp only
      rw [hag r hr]
  · intro hp
    unfold pingRun
    rw [hp]
  · intro r hb
    unfold queryRun
    rw [hb]

/-- Witness for C8: two ping transports that agree on the one ping request
give the same outcome. -/
theorem no_retry_single_request_witness :
    pingRun ⟨"http://u", "test", none⟩ (fun _ => Except.error "x")
      = pingRun ⟨"http://u", "test", none⟩ (fun _r => Except.error "x") :=
  (no_retry_single_request ⟨"http://u", "test", none⟩ (QueryObj.read (Except.ok "q"))
    (fun _ => Except.ok (some "a")) (fun _ => Except.ok (some "a"))
    (fun _ => Except.error "x") (fun _r => Except.error "x") "z").2.2.2.1 rfl

/-- C9: the header processing of `ping` reaches a value (no `unwrap` panic,
modelled as `some`) exactly when both the `X-Influxdb-Build` and the
`X-Influxdb-Version` header are present and convert to strings of visible
ASCII; in that case the result is the (build, version) pair. A missing
header or a non-visible-ASCII value is a panic (`none`), not an error
return. -/
theorem ping_unwrap_panics (hs : List (String × List Nat)) :
    ((pingProcess hs).isSome = true ↔
      ((∃ b, lookupHeader hs "X-Influxdb-Build" = some b ∧ (headerToStr b).isSome = true)
        ∧ (∃ v, lookupHeader hs "X-Influxdb-Version" = some v
            ∧ (headerToStr v).isSome = true)))
    ∧ (∀ b v bs vs, lookupHeader hs "X-Influxdb-Build" = some b → headerToStr b = some bs →
        lookupHeader hs "X-Influxdb-Version" = some v → headerToStr v = some vs →
        pingProcess hs = some (bs, vs)) := by
  have h2 : ∀ b v bs vs, lookupHeader hs "X-Influxdb-Build" = some b →
      headerToStr b = some bs → lookupHeader hs "X-Influxdb-Version" = some v →
      headerToStr v = some vs → pingProcess hs = some (bs, vs) := by
    intro b v bs vs hb hsb hv hsv
    unfold pingProcess
    rw [hb]
    dsimp only
    rw [hsb]
    dsimp only
    rw [hv]
    dsimp only
    rw [hsv]
  refine ⟨?_, h2⟩
  cases hb : lookupHeader hs "X-Influxdb-Build" with
  | none => simp [pingProcess, hb]
  | some b =>
    cases hsb : headerToStr b with
    | none => simp [pingProcess, hb, hsb]
    | some bs =>
      cases hv : lookupHeader hs "X-Influxdb-Version" with
      | none => simp [pingProcess, hb, hsb, hv]
      | some v =>
        cases hsv : headerToStr v with
        | none => simp [pingProcess, hb, hsb, hv, hsv]
        | some vs => simp [pingProcess, hb, hsb, hv, hsv]

/-- Witness for C9: a concrete response with both headers present and
visible-ASCII yields the (build, version) pair. -/
theorem ping_unwrap_panics_witness :
    pingProcess [("X-Influxdb-Build", [79, 83, 83]), ("X-Influxdb-Version", [49, 46, 55])]
      = some ("OSS", "1.7") :=
  (ping_unwrap_panics
    [("X-Influxdb-Build", [79, 83, 83]), ("X-Influxdb-Version", [49, 46, 55])]).2
    [79, 83, 83] [49, 46, 55] "OSS" "1.7" rfl rfl rfl rfl

/-- C10: the request parameters (`db`, `q` or `precision`, and `u`, `p` when
authentication is configured) are form-urlencoded into the request URL's
query string, each pair as `encode key = encode value` joined by `&`; the
last conjunct evaluates the encoding on a string needing escapes. -/
theorem parameters_urlencoded (c : InfluxDbClient) (qs prec u p : String) :
    (∃ r, buildRequest ⟨c.url, c.database, some ⟨u, p⟩⟩ (QueryObj.read (Except.ok qs))
          = Except.ok r ∧
        r.urlQuery = String.intercalate "&"
          ([("db", c.database), ("q", qs), ("u", u), ("p", p)].map
            fun kv => formUrlEncodeStr kv.1 ++ "=" ++ formUrlEncodeStr kv.2))
    ∧ (∃ r, buildRequest ⟨c.url, c.database, some ⟨u, p⟩⟩ (QueryObj.write (Except.ok qs) prec)
          = Except.ok r ∧
        r.urlQuery = String.intercalate "&"
          ([("db", c.database), ("precision", prec), ("u", u), ("p", p)].map
            fun kv => formUrlEncodeStr kv.1 ++ "=" ++ formUrlEncodeStr kv.2))
    ∧ (∃ r, buildRequest ⟨c.url, c.database, none⟩ (QueryObj.read (Except.ok qs))
          = Except.ok r ∧
        r.urlQuery = String.intercalate "&"
          ([("db", c.database), ("q", qs)].map
            fun kv => formUrlEncodeStr kv.1 ++ "=" ++ formUrlEncodeStr kv.2))
    ∧ formUrlEncodeStr "a b&c=d/ä" = "a+b%26c%3Dd%2F%C3%A4" :=
  ⟨⟨_, rfl, rfl⟩, ⟨_, rfl, rfl⟩, ⟨_, rfl, rfl⟩, rfl⟩
